import Mathlib

/-!
Shallow embedding of the berry-fetching client in `src/berries/berries.py`.

The Python module talks to a remote REST service over HTTP, parses JSON
response bodies with dynamic (unchecked) field access, and fans out one
detail fetch per index entry using `asyncio.as_completed`, yielding results
in completion order.  The embedding below models:

  - JSON values as an inductive `Json`;
  - Python runtime errors raised by the code paths in `berries.py`
    (`httpx.HTTPStatusError` from `raise_for_status`, `KeyError` from a
    missing dict key, `TypeError` from indexing or iterating a value of the
    wrong shape) as `PyErr`;
  - the remote transport as a function from request URL to response
    (`Env`), so one run of the program is a pure computation;
  - the nondeterministic completion order of the concurrently launched
    detail fetches as an explicit list parameter, constrained in each
    theorem to be a permutation of the fetch results in launch order.

Python dataclass annotations are not enforced at runtime, so the fields of
`Berry`, `Firmness` and `Flavor` hold whatever JSON values the payload
supplied; the embedding therefore stores `Json` in those fields.
-/

/-- A parsed JSON value, as produced by `response.json()`.  Numbers are
modelled as integers (the fields consumed by the code are integral). -/
inductive Json where
  | null : Json
  | bool : Bool → Json
  | num : Int → Json
  | str : String → Json
  | arr : List Json → Json
  | obj : List (String × Json) → Json

mutual

/-- Decidable equality for `Json`, written by hand because automatic
deriving does not handle the nested list occurrences. -/
def Json.decEq : (a b : Json) → Decidable (a = b)
  | .null, .null => isTrue rfl
  | .bool x, .bool y =>
      if h : x = y then isTrue (by rw [h]) else isFalse (fun hh => h (Json.bool.inj hh))
  | .num x, .num y =>
      if h : x = y then isTrue (by rw [h]) else isFalse (fun hh => h (Json.num.inj hh))
  | .str x, .str y =>
      if h : x = y then isTrue (by rw [h]) else isFalse (fun hh => h (Json.str.inj hh))
  | .arr xs, .arr ys =>
      match Json.decEqList xs ys with
      | isTrue h => isTrue (by rw [h])
      | isFalse h => isFalse (fun hh => h (Json.arr.inj hh))
  | .obj xs, .obj ys =>
      match Json.decEqObj xs ys with
      | isTrue h => isTrue (by rw [h])
      | isFalse h => isFalse (fun hh => h (Json.obj.inj hh))
  | .null, .bool _ => isFalse (fun h => Json.noConfusion h)
  | .null, .num _ => isFalse (fun h => Json.noConfusion h)
  | .null, .str _ => isFalse (fun h => Json.noConfusion h)
  | .null, .arr _ => isFalse (fun h => Json.noConfusion h)
  | .null, .obj _ => isFalse (fun h => Json.noConfusion h)
  | .bool _, .null => isFalse (fun h => Json.noConfusion h)
  | .bool _, .num _ => isFalse (fun h => Json.noConfusion h)
  | .bool _, .str _ => isFalse (fun h => Json.noConfusion h)
  | .bool _, .arr _ => isFalse (fun h => Json.noConfusion h)
  | .bool _, .obj _ => isFalse (fun h => Json.noConfusion h)
  | .num _, .null => isFalse (fun h => Json.noConfusion h)
  | .num _, .bool _ => isFalse (fun h => Json.noConfusion h)
  | .num _, .str _ => isFalse (fun h => Json.noConfusion h)
  | .num _, .arr _ => isFalse (fun h => Json.noConfusion h)
  | .num _, .obj _ => isFalse (fun h => Json.noConfusion h)
  | .str _, .null => isFalse (fun h => Json.noConfusion h)
  | .str _, .bool _ => isFalse (fun h => Json.noConfusion h)
  | .str _, .num _ => isFalse (fun h => Json.noConfusion h)
  | .str _, .arr _ => isFalse (fun h => Json.noConfusion h)
  | .str _, .obj _ => isFalse (fun h => Json.noConfusion h)
  | .arr _, .null => isFalse (fun h => Json.noConfusion h)
  | .arr _, .bool _ => isFalse (fun h => Json.noConfusion h)
  | .arr _, .num _ => isFalse (fun h => Json.noConfusion h)
  | .arr _, .str _ => isFalse (fun h => Json.noConfusion h)
  | .arr _, .obj _ => isFalse (fun h => Json.noConfusion h)
  | .obj _, .null => isFalse (fun h => Json.noConfusion h)
  | .obj _, .bool _ => isFalse (fun h => Json.noConfusion h)
  | .obj _, .num _ => isFalse (fun h => Json.noConfusion h)
  | .obj _, .str _ => isFalse (fun h => Json.noConfusion h)
  | .obj _, .arr _ => isFalse (fun h => Json.noConfusion h)

/-- Decidable equality for lists of `Json`. -/
def Json.decEqList : (xs ys : List Json) → Decidable (xs = ys)
  | [], [] => isTrue rfl
  | [], _ :: _ => isFalse (fun h => List.noConfusion h)
  | _ :: _, [] => isFalse (fun h => List.noConfusion h)
  | x :: xs, y :: ys =>
      match Json.decEq x y with
      | isFalse h1 => isFalse (fun h => h1 (List.cons.inj h).1)
      | isTrue h1 =>
          match Json.decEqList xs ys with
          | isTrue h2 => isTrue (by rw [h1, h2])
          | isFalse h2 => isFalse (fun h => h2 (List.cons.inj h).2)

/-- Decidable equality for JSON object entry lists. -/
def Json.decEqObj : (xs ys : List (String × Json)) → Decidable (xs = ys)
  | [], [] => isTrue rfl
  | [], _ :: _ => isFalse (fun h => List.noConfusion h)
  | _ :: _, [] => isFalse (fun h => List.noConfusion h)
  | (k, v) :: xs, (k2, v2) :: ys =>
      if hk : k = k2 then
        match Json.decEq v v2 with
        | isFalse h1 => isFalse (fun h => h1 (congrArg Prod.snd (List.cons.inj h).1))
        | isTrue h1 =>
            match Json.decEqObj xs ys with
            | isTrue h2 => isTrue (by rw [hk, h1, h2])
            | isFalse h2 => isFalse (fun h => h2 (List.cons.inj h).2)
      else isFalse (fun h => hk (congrArg Prod.fst (List.cons.inj h).1))

end

instance : DecidableEq Json := Json.decEq

mutual

/-- Python repr of a parsed JSON value, used by str() on containers. -/
def Json.pyRepr : Json → String
  | .null => "None"
  | .bool b => cond b "True" "False"
  | .num n => toString n
  | .str s => "\x27" ++ s ++ "\x27"
  | .arr xs => "[" ++ String.intercalate ", " (Json.pyReprList xs) ++ "]"
  | .obj kvs => "\x7b" ++ String.intercalate ", " (Json.pyReprObj kvs) ++ "\x7d"
termination_by j => sizeOf j

/-- Helper for `Json.pyRepr` on array elements. -/
def Json.pyReprList : List Json → List String
  | [] => []
  | x :: xs => x.pyRepr :: Json.pyReprList xs
termination_by xs => sizeOf xs

/-- Helper for `Json.pyRepr` on object entries. -/
def Json.pyReprObj : List (String × Json) → List String
  | [] => []
  | (k, v) :: kvs => ("\x27" ++ k ++ "\x27: " ++ v.pyRepr) :: Json.pyReprObj kvs
termination_by kvs => sizeOf kvs

end

/-- Python str() of a parsed JSON value, as an f-string renders it. -/
def Json.pyStr : Json → String
  | .str s => s
  | j => j.pyRepr

/-- Success statuses: the httpx predicate is_success consulted by
raise_for_status accepts exactly the 2xx codes. -/
def isSuccess (status : Nat) : Bool :=
  decide (200 ≤ status) && decide (status < 300)

/-- Python runtime errors raised on the code paths of berries.py:
raise_for_status raises httpx.HTTPStatusError (carrying the response
status and the request URL); a missing dict key raises KeyError (carrying
only the key); indexing or iterating a value of the wrong shape raises
TypeError. -/
inductive PyErr where
  | httpStatusError : Nat → String → PyErr
  | keyError : String → PyErr
  | typeError : PyErr
deriving DecidableEq

/-- An HTTP response: status code and parsed JSON body. -/
structure Response where
  status : Nat
  body : Json
deriving DecidableEq

/-- The remote transport: every GET of a URL returns a response.  A fixed
function models an unchanged remote over one run. -/
structure Env where
  http : String → Response

/-- Models response.raise_for_status().json(): the body on a success
status, httpx.HTTPStatusError with the status and request URL otherwise. -/
def raiseForStatus (r : Response) (url : String) : Except PyErr Json :=
  if isSuccess r.status then .ok r.body
  else .error (.httpStatusError r.status url)

/-- Python subscripting value[key] with a string key: looks the key up in
a dict (KeyError when absent), TypeError on any non-dict value. -/
def Json.index : Json → String → Except PyErr Json
  | .obj kvs, k =>
      match kvs.lookup k with
      | some v => .ok v
      | none => .error (.keyError k)
  | _, _ => .error .typeError

/-- Python iteration over a value: a list yields its elements, a string
its characters, a dict its keys; other values raise TypeError. -/
def Json.iter : Json → Except PyErr (List Json)
  | .arr xs => .ok xs
  | .str s => .ok (s.toList.map (fun c => Json.str (String.singleton c)))
  | .obj kvs => .ok (kvs.map (fun kv => Json.str kv.1))
  | _ => .error .typeError

/-- Models a Python list comprehension whose body may raise: elements are
produced left to right and the first raised error aborts the whole
comprehension. -/
def mapExcept (f : α → Except PyErr β) : List α → Except PyErr (List β)
  | [] => .ok []
  | a :: as => do
      let b ← f a
      let bs ← mapExcept f as
      pure (b :: bs)

/-- The Firmness dataclass.  Python does not enforce the str annotations
at runtime, so the fields hold whatever the payload supplied. -/
structure Firmness where
  name : Json
  url : Json
deriving DecidableEq

/-- The Flavor dataclass; annotations unenforced as for Firmness. -/
structure Flavor where
  name : Json
  url : Json
  potency : Json
deriving DecidableEq

/-- The Berry dataclass; annotations unenforced as for Firmness. -/
structure Berry where
  id : Json
  name : Json
  firmness : Firmness
  flavors : List Flavor
deriving DecidableEq

/-- The id argument of BerriesAPI.get, annotated int | str in the code. -/
inductive BerryId where
  | int : Int → BerryId
  | str : String → BerryId
deriving DecidableEq

/-- Rendering of the id into the request URL by the f-string in get. -/
def BerryId.render : BerryId → String
  | .int n => toString n
  | .str s => s

/-- URL of the single-item endpoint built by get. -/
def detailUrl (base : String) (id : BerryId) : String :=
  base ++ "/" ++ id.render

/-- The argument get_all_generator passes to get for an index entry name.
In the dynamic code the name is whatever JSON value the entry held; a
non-string value would be rendered into the URL by str(), which
Json.pyStr models. -/
def nameToId : Json → BerryId
  | .str s => .str s
  | .num n => .int n
  | j => .str j.pyStr

/-- Body of the list comprehension over data["flavors"] in get: one
Flavor built from one entry, fields evaluated in source order. -/
def parseFlavor (fl : Json) : Except PyErr Flavor := do
  let vfl ← fl.index "flavor"
  let n ← vfl.index "name"
  let u ← vfl.index "url"
  let p ← fl.index "potency"
  pure ⟨n, u, p⟩

namespace BerriesAPI

/-- BerriesAPI.get: one GET of the detail URL, raise_for_status, then
field extraction in the evaluation order of the Berry construction. -/
def get (env : Env) (base : String) (id : BerryId) : Except PyErr Berry := do
  let data ← raiseForStatus (env.http (detailUrl base id)) (detailUrl base id)
  let vid ← data.index "id"
  let vname ← data.index "name"
  let vfirm ← data.index "firmness"
  let fname ← vfirm.index "name"
  let furl ← vfirm.index "url"
  let vflavors ← data.index "flavors"
  let flEntries ← vflavors.iter
  let flavors ← mapExcept parseFlavor flEntries
  pure ⟨vid, vname, ⟨fname, furl⟩, flavors⟩

/-- The index fetch and name extraction at the top of get_all_generator:
GET of the base URL, raise_for_status, data["results"], then the name of
each entry. -/
def fetchIndexNames (env : Env) (base : String) : Except PyErr (List Json) := do
  let data ← raiseForStatus (env.http base) base
  let results ← data.index "results"
  let entries ← results.iter
  mapExcept (fun b => b.index "name") entries

/-- The detail fetches launched by get_all_generator, in launch order: one
call of get per index entry, keyed by the entry name. -/
def launched (env : Env) (base : String) (names : List Json) : List (Except PyErr Berry) :=
  names.map (fun n => get env base (nameToId n))

/-- The consumer loop over asyncio.as_completed: each completed task is
awaited in completion order; a success is yielded, a failure raises and
aborts the remainder of the enumeration. -/
def drain : List (Except PyErr Berry) → List Berry × Option PyErr
  | [] => ([], none)
  | .ok b :: rest =>
      let r := drain rest
      (b :: r.1, r.2)
  | .error e :: _ => ([], some e)

/-- One enumeration of BerriesAPI.get_all_generator: the index fetch (a
failure there raises before anything is yielded), then the launched
detail-fetch results consumed in completion order.  The order argument is
the arrival order of the task results; each theorem constrains it to a
permutation of the launch-order results, the orders asyncio.as_completed
can deliver. -/
def get_all_generator (env : Env) (base : String)
    (order : List (Except PyErr Berry)) : List Berry × Option PyErr :=
  match fetchIndexNames env base with
  | .error e => ([], some e)
  | .ok _ => drain order

/-- BerriesAPI.get_all: the async list comprehension draining the
generator; an error raised mid-stream propagates and the partial list is
discarded. -/
def get_all (env : Env) (base : String)
    (order : List (Except PyErr Berry)) : Except PyErr (List Berry) :=
  match get_all_generator env base order with
  | (ys, none) => .ok ys
  | (_, some e) => .error e

end BerriesAPI

/-- The BerriesRepository protocol: the three operations a repository
offers.  The generator operation is modelled by its enumeration outcome:
the yielded items and the error, if any, ending the enumeration. -/
structure BerriesRepository where
  get : BerryId → Except PyErr Berry
  get_all : Except PyErr (List Berry)
  get_all_generator : List Berry × Option PyErr

/-- BerriesService holds the repository it is constructed with. -/
structure BerriesService where
  repository : BerriesRepository

namespace BerriesService

/-- BerriesService.get: await self._repository.get(id). -/
def get (s : BerriesService) (id : BerryId) : Except PyErr Berry :=
  s.repository.get id

/-- BerriesService.get_all: await self._repository.get_all(). -/
def get_all (s : BerriesService) : Except PyErr (List Berry) :=
  s.repository.get_all

/-- The re-yield loop in BerriesService.get_all_generator: each item of
the inner enumeration is yielded in turn; an inner error propagates once
the loop advances past the yielded items. -/
def forwardGen : List Berry × Option PyErr → List Berry × Option PyErr
  | ([], e) => ([], e)
  | (b :: ys, e) =>
      let r := forwardGen (ys, e)
      (b :: r.1, r.2)

/-- BerriesService.get_all_generator: the async for loop re-yielding the
enumeration of the repository generator. -/
def get_all_generator (s : BerriesService) : List Berry × Option PyErr :=
  forwardGen s.repository.get_all_generator

end BerriesService

/-- Draining a run of all-successful completion results yields exactly the
berries, in arrival order, and ends without an error. -/
theorem drain_map_ok (bs : List Berry) :
    BerriesAPI.drain (bs.map Except.ok) = (bs, none) := by
  induction bs with
  | nil => rfl
  | cons b bs ih => simp [BerriesAPI.drain, ih]

/-- Draining results that are successes up to a failure yields the
preceding berries, then raises that failure, discarding the rest. -/
theorem drain_yield_then_error (pre : List Berry) (e : PyErr)
    (rest : List (Except PyErr Berry)) :
    BerriesAPI.drain (pre.map Except.ok ++ Except.error e :: rest) = (pre, some e) := by
  induction pre with
  | nil => rfl
  | cons b bs ih => simp [BerriesAPI.drain, ih]

/-- The re-yield loop of the service forwards an enumeration unchanged. -/
theorem forwardGen_eq (g : List Berry × Option PyErr) :
    BerriesService.forwardGen g = g := by
  obtain ⟨ys, e⟩ := g
  induction ys with
  | nil => simp [BerriesService.forwardGen]
  | cons b ys ih => simp [BerriesService.forwardGen, ih]

/-- Mapping a function over a list cannot decrease the multiplicity of any
element image. -/
theorem count_le_count_map {α β : Type} [DecidableEq α] [DecidableEq β]
    (l : List α) (f : α → β) (a : α) :
    l.count a ≤ (l.map f).count (f a) := by
  induction l with
  | nil => simp
  | cons x xs ih =>
      simp only [List.map_cons, List.count_cons, beq_iff_eq]
      split_ifs with h1 h2
      · exact Nat.add_le_add ih (Nat.le_refl 1)
      · exact absurd (by rw [h1]) h2
      · exact Nat.le_trans ih (Nat.le_add_right _ 1)
      · exact ih

/-- Index body listing the two entries cheri and chesto. -/
def idxBody2 : Json :=
  Json.obj [("results", Json.arr [
    Json.obj [("name", Json.str "cheri")],
    Json.obj [("name", Json.str "chesto")]])]

/-- Detail body of the cheri fixture (the payload of testable property 7
in the specification). -/
def cheriDetail : Json :=
  Json.obj [("id", Json.num 1), ("name", Json.str "cheri"),
    ("firmness", Json.obj [("name", Json.str "soft"), ("url", Json.str "u1")]),
    ("flavors", Json.arr [
      Json.obj [("flavor", Json.obj [("name", Json.str "spicy"), ("url", Json.str "u2")]),
        ("potency", Json.num 10)]])]

/-- Berry parsed from the cheri fixture. -/
def cheriBerry : Berry :=
  ⟨Json.num 1, Json.str "cheri", ⟨Json.str "soft", Json.str "u1"⟩,
    [⟨Json.str "spicy", Json.str "u2", Json.num 10⟩]⟩

/-- Detail body of the chesto fixture. -/
def chestoDetail : Json :=
  Json.obj [("id", Json.num 2), ("name", Json.str "chesto"),
    ("firmness", Json.obj [("name", Json.str "hard"), ("url", Json.str "u3")]),
    ("flavors", Json.arr [])]

/-- Berry parsed from the chesto fixture. -/
def chestoBerry : Berry :=
  ⟨Json.num 2, Json.str "chesto", ⟨Json.str "hard", Json.str "u3"⟩, []⟩

/-- A remote fixture with a two-entry index and both details healthy. -/
def env2 : Env :=
  ⟨fun url =>
    if url = "b" then ⟨200, idxBody2⟩
    else if url = "b/cheri" then ⟨200, cheriDetail⟩
    else if url = "b/chesto" then ⟨200, chestoDetail⟩
    else ⟨404, Json.null⟩⟩

/-- Index body with three entries whose middle detail fetch will fail. -/
def idxBody3 : Json :=
  Json.obj [("results", Json.arr [
    Json.obj [("name", Json.str "cheri")],
    Json.obj [("name", Json.str "rawst")],
    Json.obj [("name", Json.str "chesto")]])]

/-- A remote fixture where the index lists three entries and the detail
endpoint of the middle entry answers with status 500. -/
def env3 : Env :=
  ⟨fun url =>
    if url = "b" then ⟨200, idxBody3⟩
    else if url = "b/cheri" then ⟨200, cheriDetail⟩
    else if url = "b/chesto" then ⟨200, chestoDetail⟩
    else ⟨500, Json.null⟩⟩

/-- A remote fixture whose index listing has zero entries. -/
def env0 : Env :=
  ⟨fun url =>
    if url = "b" then ⟨200, Json.obj [("results", Json.arr [])]⟩
    else ⟨404, Json.null⟩⟩

/-- Claim C1: for a non-empty index listing, get_all_generator launches
exactly one detail fetch per listed name (the launch list is the pointwise
image of the names under get, so it has one entry per name and no cap),
and the items reach the consumer in completion order: for every
permutation in which the concurrently racing fetches may complete, the
enumeration yields exactly the successful results of that permutation in
that order, not in listing order. -/
theorem claim_C1_fanout_and_completion_order
    (env : Env) (base : String) (names : List Json)
    (order : List (Except PyErr Berry)) (bs : List Berry)
    (hidx : BerriesAPI.fetchIndexNames env base = Except.ok names)
    (hne : names ≠ [])
    (hperm : order.Perm (BerriesAPI.launched env base names))
    (hok : order = bs.map Except.ok) :
    BerriesAPI.launched env base names
        = names.map (fun n => BerriesAPI.get env base (nameToId n))
      ∧ (BerriesAPI.launched env base names).length = names.length
      ∧ BerriesAPI.get_all_generator env base order = (bs, none) := by
  refine ⟨rfl, by simp [BerriesAPI.launched], ?_⟩
  simp [BerriesAPI.get_all_generator, hidx, hok, drain_map_ok]

/-- Witness for claim C1 on the two-entry fixture, with the completion
order equal to the launch order. -/
theorem claim_C1_witness :
    BerriesAPI.get_all_generator env2 "b"
        (BerriesAPI.launched env2 "b" [Json.str "cheri", Json.str "chesto"])
      = ([cheriBerry, chestoBerry], none) := by
  have h := claim_C1_fanout_and_completion_order env2 "b"
    [Json.str "cheri", Json.str "chesto"]
    (BerriesAPI.launched env2 "b" [Json.str "cheri", Json.str "chesto"])
    [cheriBerry, chestoBerry]
    rfl (by simp) (List.Perm.refl _) rfl
  exact h.2.2

/-- Claim C3: when one detail fetch fails, the failure is raised at its
completion-order position: the enumeration yields the successful results
that completed before it, unchanged, and raises the error there, aborting
the rest; and get_all raises the same error, returning no list. -/
theorem claim_C3_mid_stream_failure
    (env : Env) (base : String) (names : List Json)
    (order : List (Except PyErr Berry)) (pre : List Berry) (e : PyErr)
    (rest : List (Except PyErr Berry))
    (hidx : BerriesAPI.fetchIndexNames env base = Except.ok names)
    (hperm : order.Perm (BerriesAPI.launched env base names))
    (hsplit : order = pre.map Except.ok ++ Except.error e :: rest) :
    BerriesAPI.get_all_generator env base order = (pre, some e)
      ∧ BerriesAPI.get_all env base order = Except.error e := by
  have hg : BerriesAPI.get_all_generator env base order = (pre, some e) := by
    simp [BerriesAPI.get_all_generator, hidx, hsplit, drain_yield_then_error]
  exact ⟨hg, by simp [BerriesAPI.get_all, hg]⟩

/-- Witness for claim C3: three entries, the middle detail fetch answers
500, and both healthy fetches complete first. -/
theorem claim_C3_witness :
    BerriesAPI.get_all_generator env3 "b"
        [Except.ok cheriBerry, Except.ok chestoBerry,
          Except.error (PyErr.httpStatusError 500 "b/rawst")]
      = ([cheriBerry, chestoBerry], some (PyErr.httpStatusError 500 "b/rawst")) := by
  have hlaunch : BerriesAPI.launched env3 "b"
      [Json.str "cheri", Json.str "rawst", Json.str "chesto"]
      = [Except.ok cheriBerry, Except.error (PyErr.httpStatusError 500 "b/rawst"),
          Except.ok chestoBerry] := rfl
  have h := claim_C3_mid_stream_failure env3 "b"
    [Json.str "cheri", Json.str "rawst", Json.str "chesto"]
    [Except.ok cheriBerry, Except.ok chestoBerry,
      Except.error (PyErr.httpStatusError 500 "b/rawst")]
    [cheriBerry, chestoBerry] (PyErr.httpStatusError 500 "b/rawst") []
    rfl
    (by
      rw [hlaunch]
      exact List.Perm.cons _
        (List.Perm.swap (Except.error (PyErr.httpStatusError 500 "b/rawst"))
          (Except.ok chestoBerry) []))
    rfl
  exact h.1

/-- Claim C4: when the index fetch and every detail fetch succeed, get_all
returns exactly the generator enumeration in its completion order, and the
returned items are a permutation of the index names mapped through the
single-item fetch, so the two sets of items are equal whatever the order. -/
theorem claim_C4_get_all_drains_generator
    (env : Env) (base : String) (names : List Json)
    (order : List (Except PyErr Berry)) (bs : List Berry)
    (hidx : BerriesAPI.fetchIndexNames env base = Except.ok names)
    (hperm : order.Perm (BerriesAPI.launched env base names))
    (hok : order = bs.map Except.ok) :
    BerriesAPI.get_all_generator env base order = (bs, none)
      ∧ BerriesAPI.get_all env base order = Except.ok bs
      ∧ (bs.map Except.ok).Perm
          (names.map (fun n => BerriesAPI.get env base (nameToId n))) := by
  have hg : BerriesAPI.get_all_generator env base order = (bs, none) := by
    simp [BerriesAPI.get_all_generator, hidx, hok, drain_map_ok]
  refine ⟨hg, by simp [BerriesAPI.get_all, hg], ?_⟩
  have := hok ▸ hperm
  simpa [BerriesAPI.launched] using this

/-- Witness for claim C4 on the two-entry fixture. -/
theorem claim_C4_witness :
    BerriesAPI.get_all env2 "b"
        (BerriesAPI.launched env2 "b" [Json.str "cheri", Json.str "chesto"])
      = Except.ok [cheriBerry, chestoBerry] := by
  have h := claim_C4_get_all_drains_generator env2 "b"
    [Json.str "cheri", Json.str "chesto"]
    (BerriesAPI.launched env2 "b" [Json.str "cheri", Json.str "chesto"])
    [cheriBerry, chestoBerry]
    rfl (List.Perm.refl _) rfl
  exact h.2.1

/-- Claim C7: a zero-entry index listing launches zero detail fetches, the
generator enumeration produces zero elements and ends cleanly, and get_all
returns the empty list. -/
theorem claim_C7_empty_listing
    (env : Env) (base : String)
    (hidx : BerriesAPI.fetchIndexNames env base = Except.ok []) :
    BerriesAPI.launched env base [] = []
      ∧ BerriesAPI.get_all_generator env base [] = ([], none)
      ∧ BerriesAPI.get_all env base [] = Except.ok [] := by
  refine ⟨rfl, ?_, ?_⟩ <;>
    simp [BerriesAPI.get_all_generator, BerriesAPI.get_all, hidx, BerriesAPI.drain]

/-- Witness for claim C7 on the empty-index fixture. -/
theorem claim_C7_witness :
    BerriesAPI.get_all env0 "b" [] = Except.ok [] :=
  (claim_C7_empty_listing env0 "b" rfl).2.2

instance : DecidableEq (Except PyErr Berry) := fun a b =>
  match a, b with
  | .ok x, .ok y =>
      if h : x = y then isTrue (by rw [h]) else isFalse (fun hh => h (Except.ok.inj hh))
  | .error x, .error y =>
      if h : x = y then isTrue (by rw [h]) else isFalse (fun hh => h (Except.error.inj hh))
  | .ok _, .error _ => isFalse (fun h => Except.noConfusion h)
  | .error _, .ok _ => isFalse (fun h => Except.noConfusion h)

/-- Bind on a successful Except computation steps to the continuation. -/
theorem except_bind_ok {A B : Type} (a : A) (f : A → Except PyErr B) :
    (Except.ok a >>= f : Except PyErr B) = f a := rfl

/-- Bind on a raised Except computation propagates the error. -/
theorem except_bind_error {A B : Type} (e : PyErr) (f : A → Except PyErr B) :
    (Except.error e >>= f : Except PyErr B) = Except.error e := rfl

/-- Mapping over a successful Except computation applies the function. -/
theorem except_map_ok {A B : Type} (f : A → B) (a : A) :
    (f <$> (Except.ok a : Except PyErr A)) = Except.ok (f a) := rfl

/-- Mapping over a raised Except computation propagates the error. -/
theorem except_map_error {A B : Type} (f : A → B) (e : PyErr) :
    (f <$> (Except.error e : Except PyErr A)) = Except.error e := rfl

/-- One flavors entry of a detail payload carries the given parsed Flavor:
its flavor object holds the name and url, and it holds the potency. -/
def FlavorEntryMatches (fl : Json) (pf : Flavor) : Prop :=
  ∃ vfl, Json.index fl "flavor" = Except.ok vfl
    ∧ Json.index vfl "name" = Except.ok pf.name
    ∧ Json.index vfl "url" = Except.ok pf.url
    ∧ Json.index fl "potency" = Except.ok pf.potency

/-- The comprehension over the flavors array parses pointwise-matching
entries into exactly the given flavor list, in order. -/
theorem mapExcept_parseFlavor (fls : List Json) (pfs : List Flavor)
    (h : List.Forall₂ FlavorEntryMatches fls pfs) :
    mapExcept parseFlavor fls = Except.ok pfs := by
  induction h with
  | nil => rfl
  | cons h1 _ ih =>
      obtain ⟨vfl, h3, h4, h5, h6⟩ := h1
      simp [mapExcept, parseFlavor, h3, h4, h5, h6, ih, except_bind_ok,
        except_map_ok]

/-- Claim C2: a detail response that is a success and whose body carries
id, name, firmness.name, firmness.url and a flavors array whose entries
carry flavor.name, flavor.url and potency is parsed into a Berry whose
fields are exactly those JSON values, the weighted flavor attributes kept
in source order (the pointwise relation on the two lists fixes both the
values and the order). -/
theorem claim_C2_field_mapping
    (env : Env) (base : String) (id : BerryId) (status : Nat) (body : Json)
    (vid vname vfirm fn fu : Json) (fls : List Json) (pfs : List Flavor)
    (hresp : env.http (detailUrl base id) = ⟨status, body⟩)
    (hst : isSuccess status = true)
    (hid : body.index "id" = Except.ok vid)
    (hname : body.index "name" = Except.ok vname)
    (hfirm : body.index "firmness" = Except.ok vfirm)
    (hfn : vfirm.index "name" = Except.ok fn)
    (hfu : vfirm.index "url" = Except.ok fu)
    (hfl : body.index "flavors" = Except.ok (Json.arr fls))
    (hflavors : List.Forall₂ FlavorEntryMatches fls pfs) :
    BerriesAPI.get env base id = Except.ok ⟨vid, vname, ⟨fn, fu⟩, pfs⟩ := by
  have hmap : mapExcept parseFlavor fls = Except.ok pfs :=
    mapExcept_parseFlavor fls pfs hflavors
  simp [BerriesAPI.get, raiseForStatus, hresp, hst, hid, hname, hfirm, hfn, hfu,
    hfl, Json.iter, hmap, except_bind_ok, except_bind_error, except_map_ok]

/-- Witness for claim C2 on the cheri fixture of the specification. -/
theorem claim_C2_witness :
    BerriesAPI.get env2 "b" (BerryId.str "cheri") = Except.ok cheriBerry := by
  have h := claim_C2_field_mapping env2 "b" (BerryId.str "cheri") 200 cheriDetail
    (Json.num 1) (Json.str "cheri")
    (Json.obj [("name", Json.str "soft"), ("url", Json.str "u1")])
    (Json.str "soft") (Json.str "u1")
    [Json.obj [("flavor", Json.obj [("name", Json.str "spicy"), ("url", Json.str "u2")]),
      ("potency", Json.num 10)]]
    [⟨Json.str "spicy", Json.str "u2", Json.num 10⟩]
    rfl rfl rfl rfl rfl rfl rfl rfl
    (List.Forall₂.cons ⟨_, rfl, rfl, rfl, rfl⟩ List.Forall₂.nil)
  exact h

/-- Claim C6: two independent implications, one per endpoint, so either
applies on its own whatever the other endpoint answers.  If the detail
endpoint answers a non-success status, get fails with the httpStatusError
carrying that status and the detail URL; if the index endpoint answers a
non-success status, the generator raises the httpStatusError carrying that
status and the base URL before yielding anything, and get_all returns the
same error.  Each embedded operation consults the transport exactly once
for its URL, mirroring the single client.get call in the code, so no
request is retried. -/
theorem claim_C6_http_status_error
    (env : Env) (base : String) (id : BerryId)
    (order : List (Except PyErr Berry)) (st : Nat) (body : Json) :
    (env.http (detailUrl base id) = ⟨st, body⟩ → isSuccess st = false →
        BerriesAPI.get env base id
          = Except.error (PyErr.httpStatusError st (detailUrl base id)))
      ∧ (env.http base = ⟨st, body⟩ → isSuccess st = false →
          BerriesAPI.get_all_generator env base order
              = ([], some (PyErr.httpStatusError st base))
            ∧ BerriesAPI.get_all env base order
              = Except.error (PyErr.httpStatusError st base)) := by
  constructor
  · intro hdet hbad
    simp [BerriesAPI.get, raiseForStatus, hdet, hbad, except_bind_error]
  · intro hidx hbad
    have hgen : BerriesAPI.get_all_generator env base order
        = ([], some (PyErr.httpStatusError st base)) := by
      simp [BerriesAPI.get_all_generator, BerriesAPI.fetchIndexNames, raiseForStatus,
        hidx, hbad, except_bind_error]
    exact ⟨hgen, by simp [BerriesAPI.get_all, hgen]⟩

/-- A remote fixture that answers 404 on every URL. -/
def envDown : Env := ⟨fun _ => ⟨404, Json.null⟩⟩

/-- Witness for claim C6: the detail-endpoint implication discharged on
the fixture whose index is healthy and whose middle detail endpoint
answers 500, and the index-endpoint implication discharged on the all-404
fixture. -/
theorem claim_C6_witness :
    BerriesAPI.get env3 "b" (BerryId.str "rawst")
        = Except.error (PyErr.httpStatusError 500 "b/rawst")
      ∧ BerriesAPI.get_all envDown "b" []
        = Except.error (PyErr.httpStatusError 404 "b") :=
  ⟨(claim_C6_http_status_error env3 "b" (BerryId.str "rawst") [] 500
      Json.null).1 rfl rfl,
    ((claim_C6_http_status_error envDown "b" (BerryId.str "x") [] 404
      Json.null).2 rfl rfl).2⟩

/-- Claim C8: the service layer delegates each of its three operations to
the repository it wraps and returns exactly the repository result; the
re-yield loop of the generator forwards the enumeration unchanged, so no
logic and no failure mode is added anywhere. -/
theorem claim_C8_service_is_thin_delegation
    (repo : BerriesRepository) (id : BerryId) :
    (BerriesService.mk repo).get id = repo.get id
      ∧ (BerriesService.mk repo).get_all = repo.get_all
      ∧ (BerriesService.mk repo).get_all_generator = repo.get_all_generator :=
  ⟨rfl, rfl, forwardGen_eq _⟩

/-- A remote fixture serving the cheri payload at id 42. -/
def env42 : Env :=
  ⟨fun url =>
    if url = "b/42" then ⟨200, cheriDetail⟩
    else ⟨404, Json.null⟩⟩

/-- Claim C9: two calls of get(42) against the same unchanged remote
return structurally equal Items, field by field, flavors included. -/
theorem claim_C9_get_idempotent
    (env : Env) (base : String) (b1 b2 : Berry)
    (h1 : BerriesAPI.get env base (BerryId.int 42) = Except.ok b1)
    (h2 : BerriesAPI.get env base (BerryId.int 42) = Except.ok b2) :
    b1 = b2 ∧ b1.id = b2.id ∧ b1.name = b2.name
      ∧ b1.firmness = b2.firmness ∧ b1.flavors = b2.flavors := by
  have h3 : b1 = b2 := Except.ok.inj (h1.symm.trans h2)
  exact ⟨h3, by rw [h3], by rw [h3], by rw [h3], by rw [h3]⟩

/-- Witness for claim C9 on the id-42 fixture. -/
theorem claim_C9_witness :
    BerriesAPI.get env42 "b" (BerryId.int 42) = Except.ok cheriBerry
      ∧ cheriBerry = cheriBerry :=
  ⟨rfl, (claim_C9_get_idempotent env42 "b" cheriBerry cheriBerry rfl rfl).1⟩

/-- Subscripting a JSON object reduces to an association-list lookup. -/
theorem json_index_obj (kvs : List (String × Json)) (k : String) :
    Json.index (Json.obj kvs) k =
      (match kvs.lookup k with
        | some v => Except.ok v
        | none => Except.error (PyErr.keyError k)) := rfl

/-- Claim C5 as amended: when a success detail response body is a JSON
object lacking any of the required top-level fields (id, name, firmness,
flavors), get raises an error and never returns a Berry, so nothing is
silently defaulted for a missing field and no partially-populated Berry
escapes; when the id field is the absent one, the error is the KeyError
naming that field.  As the counterexample shows, the raised error carries
only the missing key and no URL, and a required field that is present but
of the wrong shape can be accepted without any error. -/
theorem claim_C5_missing_required_field
    (env : Env) (base : String) (id : BerryId) (status : Nat)
    (kvs : List (String × Json))
    (hresp : env.http (detailUrl base id) = ⟨status, Json.obj kvs⟩)
    (hst : isSuccess status = true)
    (hmiss : kvs.lookup "id" = none ∨ kvs.lookup "name" = none
      ∨ kvs.lookup "firmness" = none ∨ kvs.lookup "flavors" = none) :
    (∃ e, BerriesAPI.get env base id = Except.error e)
      ∧ (kvs.lookup "id" = none →
          BerriesAPI.get env base id = Except.error (PyErr.keyError "id"))
      ∧ ∀ b, BerriesAPI.get env base id ≠ Except.ok b := by
  have hmain : (∃ e, BerriesAPI.get env base id = Except.error e)
      ∧ (kvs.lookup "id" = none →
          BerriesAPI.get env base id = Except.error (PyErr.keyError "id")) := by
    cases h1 : kvs.lookup "id" with
    | none =>
        have : BerriesAPI.get env base id = Except.error (PyErr.keyError "id") := by
          simp [BerriesAPI.get, raiseForStatus, hresp, hst, json_index_obj, h1,
            except_bind_ok, except_bind_error]
        exact ⟨⟨_, this⟩, fun _ => this⟩
    | some vid =>
        refine ⟨?_, fun h => by simp [h1] at h⟩
        cases h2 : kvs.lookup "name" with
        | none =>
            exact ⟨PyErr.keyError "name", by simp [BerriesAPI.get, raiseForStatus,
              hresp, hst, json_index_obj, h1, h2, except_bind_ok, except_bind_error]⟩
        | some vname =>
            cases h3 : kvs.lookup "firmness" with
            | none =>
                exact ⟨PyErr.keyError "firmness", by simp [BerriesAPI.get, raiseForStatus,
                  hresp, hst, json_index_obj, h1, h2, h3, except_bind_ok, except_bind_error]⟩
            | some vfirm =>
                have h4 : kvs.lookup "flavors" = none := by
                  rcases hmiss with h | h | h | h
                  · rw [h1] at h; exact Option.noConfusion h
                  · rw [h2] at h; exact Option.noConfusion h
                  · rw [h3] at h; exact Option.noConfusion h
                  · exact h
                cases hfn : Json.index vfirm "name" with
                | error e =>
                    exact ⟨e, by simp [BerriesAPI.get, raiseForStatus, hresp, hst,
                      json_index_obj, h1, h2, h3, hfn, except_bind_ok, except_bind_error]⟩
                | ok fn =>
                    cases hfu : Json.index vfirm "url" with
                    | error e =>
                        exact ⟨e, by simp [BerriesAPI.get, raiseForStatus, hresp, hst,
                          json_index_obj, h1, h2, h3, hfn, hfu, except_bind_ok,
                          except_bind_error]⟩
                    | ok fu =>
                        exact ⟨PyErr.keyError "flavors", by simp [BerriesAPI.get,
                          raiseForStatus, hresp, hst, json_index_obj, h1, h2, h3, h4,
                          hfn, hfu, except_bind_ok, except_bind_error]⟩
  refine ⟨hmain.1, hmain.2, ?_⟩
  intro b hb
  obtain ⟨e, he⟩ := hmain.1
  rw [hb] at he
  exact Except.noConfusion he

/-- A detail body lacking the required id field. -/
def missingIdDetail : Json := Json.obj [("name", Json.str "mi")]

/-- A remote fixture serving the id-less detail body. -/
def envMissingId : Env :=
  ⟨fun url =>
    if url = "b/mi" then ⟨200, missingIdDetail⟩
    else ⟨404, Json.null⟩⟩

/-- A detail body whose flavors field is present but of the wrong shape:
a JSON object where the remote protocol requires an array. -/
def badShapeDetail : Json :=
  Json.obj [("id", Json.num 1), ("name", Json.str "cheri"),
    ("firmness", Json.obj [("name", Json.str "soft"), ("url", Json.str "u1")]),
    ("flavors", Json.obj [])]

/-- A remote fixture serving the wrong-shape detail body. -/
def envBadShape : Env :=
  ⟨fun url =>
    if url = "b/cheri" then ⟨200, badShapeDetail⟩
    else ⟨404, Json.null⟩⟩

/-- Counterexample to claim C5 as stated: the failure for a missing id is
a KeyError carrying only the field name and no URL (the error type raised
by the code has no URL component), and a flavors field of the wrong shape
(an object instead of an array) does not fail at all: get silently
returns a Berry whose flavors default to the empty sequence. -/
theorem claim_C5_counterexample :
    BerriesAPI.get envMissingId "b" (BerryId.str "mi")
        = Except.error (PyErr.keyError "id")
      ∧ BerriesAPI.get envBadShape "b" (BerryId.str "cheri")
        = Except.ok ⟨Json.num 1, Json.str "cheri",
            ⟨Json.str "soft", Json.str "u1"⟩, []⟩ :=
  ⟨rfl, rfl⟩

/-- Witness for the amended claim C5 on the id-less fixture. -/
theorem claim_C5_witness :
    (∃ e, BerriesAPI.get envMissingId "b" (BerryId.str "mi") = Except.error e)
      ∧ BerriesAPI.get envMissingId "b" (BerryId.str "mi")
        = Except.error (PyErr.keyError "id") :=
  ⟨(claim_C5_missing_required_field envMissingId "b" (BerryId.str "mi") 200
      [("name", Json.str "mi")] rfl rfl (Or.inl rfl)).1,
    (claim_C5_missing_required_field envMissingId "b" (BerryId.str "mi") 200
      [("name", Json.str "mi")] rfl rfl (Or.inl rfl)).2.1 rfl⟩

/-- Claim C10: the generator keys each detail fetch by the name string of
the index entry and launches exactly one fetch per entry, so a name that
occurs k times in the listing gives k separate fetches, and when all
fetches succeed the enumeration contains at least k items equal to the
item that fetching that name returns. -/
theorem claim_C10_fetch_per_entry_keyed_by_name
    (env : Env) (base : String) (names : List Json) (nm : String) (k : Nat)
    (b : Berry) (order : List (Except PyErr Berry)) (bs : List Berry)
    (hidx : BerriesAPI.fetchIndexNames env base = Except.ok names)
    (hcount : names.count (Json.str nm) = k)
    (hb : BerriesAPI.get env base (BerryId.str nm) = Except.ok b)
    (hperm : order.Perm (BerriesAPI.launched env base names))
    (hok : order = bs.map Except.ok) :
    BerriesAPI.launched env base names
        = names.map (fun n => BerriesAPI.get env base (nameToId n))
      ∧ (BerriesAPI.launched env base names).length = names.length
      ∧ k ≤ bs.count b
      ∧ BerriesAPI.get_all_generator env base order = (bs, none) := by
  refine ⟨rfl, by simp [BerriesAPI.launched], ?_, ?_⟩
  · have h1 : names.count (Json.str nm)
        ≤ (BerriesAPI.launched env base names).count
            (BerriesAPI.get env base (nameToId (Json.str nm))) :=
      count_le_count_map names (fun n => BerriesAPI.get env base (nameToId n))
        (Json.str nm)
    have h2 : BerriesAPI.get env base (nameToId (Json.str nm)) = Except.ok b := hb
    rw [h2] at h1
    have h3 := hperm.count_eq (Except.ok b)
    have h4 : order.count (Except.ok b) = bs.count b := by
      rw [hok]
      exact List.count_map_of_injective bs Except.ok
        (fun x y hxy => Except.ok.inj hxy) b
    omega
  · simp [BerriesAPI.get_all_generator, hidx, hok, drain_map_ok]

/-- Index body listing the same name twice. -/
def idxBodyDup : Json :=
  Json.obj [("results", Json.arr [
    Json.obj [("name", Json.str "cheri")],
    Json.obj [("name", Json.str "cheri")]])]

/-- A remote fixture whose index lists cheri twice. -/
def envDup : Env :=
  ⟨fun url =>
    if url = "b" then ⟨200, idxBodyDup⟩
    else if url = "b/cheri" then ⟨200, cheriDetail⟩
    else ⟨404, Json.null⟩⟩

/-- Witness for claim C10 on the duplicated-name fixture. -/
theorem claim_C10_witness :
    2 ≤ ([cheriBerry, cheriBerry].count cheriBerry)
      ∧ BerriesAPI.get_all_generator envDup "b"
          (BerriesAPI.launched envDup "b" [Json.str "cheri", Json.str "cheri"])
        = ([cheriBerry, cheriBerry], none) := by
  have h := claim_C10_fetch_per_entry_keyed_by_name envDup "b"
    [Json.str "cheri", Json.str "cheri"] "cheri" 2 cheriBerry
    (BerriesAPI.launched envDup "b" [Json.str "cheri", Json.str "cheri"])
    [cheriBerry, cheriBerry]
    rfl (by decide) rfl (List.Perm.refl _) rfl
  exact ⟨h.2.2.1, h.2.2.2⟩
